import Mathlib

/-!
# Verification of the ALICE_BETA2 discovery / scoring pipeline

Shallow embedding of the JavaScript sources (`src/index.js`, `src/server.js`,
`src/unnamed/part_000`, `src/unnamed/part_001`) of the ALICE oracle small-cap
scanner, together with proofs about the embedded operations.

Numbers are modelled as rationals (`ℚ`); JavaScript `Math.round` is modelled
as `⌊x + 1/2⌋`; JavaScript `x || d` on numbers (falsy on `null`/`0`) is
modelled by `jsOr`; nullable values are `Option`s; network results are passed
in as explicit parameters.
-/

namespace Alice

/-- JavaScript `Math.round`: round half up, `Math.round x = ⌊x + 1/2⌋`. -/
def jsRound (x : ℚ) : ℤ := ⌊x + 1/2⌋

/-- JavaScript `x || d` for a nullable number `x`: `null`/`undefined` and `0`
are falsy and give the default `d`. -/
def jsOr (o : Option ℚ) (d : ℚ) : ℚ :=
  match o with
  | none => d
  | some x => if x = 0 then d else x

/-- JavaScript `(s?.length || 0)` for a nullable string. -/
def jsLen (o : Option String) : ℕ := (o.map String.length).getD 0

/-- The nullable token fields read by `analyze10Layers`
(`index.js` names; `server.js` uses the same shape with CoinGecko names). -/
structure TokenData where
  name : Option String
  symbol : Option String
  priceChange24h : Option ℚ
  rank : Option ℚ
  volumeUsd24h : Option ℚ
  marketCap : Option ℚ
  liquidityScore : Option ℚ
deriving DecidableEq

/-- Result of `getMoonPhase` (the fields the scoring engine reads). -/
structure MoonPhase where
  phase : String
  illumination : ℤ
deriving DecidableEq

/-- Result of `getKpIndex`. -/
structure KpIndex where
  kp : ℚ
  level : String
deriving DecidableEq

/-- `calculateRSI`: gains/losses accumulated over the first `period` price
changes (`for (let i = 1; i <= period; i++)`). -/
def rsiSums (prices : List ℚ) (period : ℕ) : ℚ × ℚ :=
  (List.range period).foldl
    (fun acc i =>
      let ch := prices.getD (i + 1) 0 - prices.getD i 0
      if ch > 0 then (acc.1 + ch, acc.2) else (acc.1, acc.2 + |ch|))
    (0, 0)

/-- `calculateRSI(prices, period = 14)` from `index.js` / `server.js`:
returns `50` when fewer than `period + 1` prices are given, `100` when the
average loss is zero, and otherwise the RSI rounded to one decimal. -/
def calculateRSI (prices : List ℚ) (period : ℕ) : ℚ :=
  if prices.length < period + 1 then 50
  else
    let s := rsiSums prices period
    let avgGain := s.1 / (period : ℚ)
    let avgLoss := s.2 / (period : ℚ)
    if avgLoss = 0 then 100
    else ((jsRound ((100 - 100 / (1 + avgGain / avgLoss)) * 10) : ℚ)) / 10

/-- Layer 1: name/symbol linguistics
(`namePower` is 80 for short names else 60, `symbolPower` 75 or 55). -/
def linguisticsLayer (td : TokenData) : ℚ :=
  ((jsRound (((if jsLen td.name < 12 then (80 : ℚ) else 60) +
      (if jsLen td.symbol < 6 then (75 : ℚ) else 55)) / 2) : ℤ) : ℚ)

/-- Layer 2: technical (RSI bands). -/
def technicalLayer (prices : List ℚ) : ℚ :=
  if calculateRSI prices 14 > 70 then 85
  else if calculateRSI prices 14 < 30 then 40 else 65

/-- Layer 3: momentum (24h price change bands). -/
def momentumLayer (td : TokenData) : ℚ :=
  if jsOr td.priceChange24h 0 > 20 then 90
  else if jsOr td.priceChange24h 0 > 0 then 70 else 40

/-- Layer 4: sentiment (market-cap rank bands, default rank 9999). -/
def sentimentLayer (td : TokenData) : ℚ :=
  if jsOr td.rank 9999 < 100 then 85 else if jsOr td.rank 9999 < 500 then 65 else 45

/-- Layer 5: liquidity (24h volume bands). -/
def liquidityLayer (td : TokenData) : ℚ :=
  if jsOr td.volumeUsd24h 0 > 10000000 then 85
  else if jsOr td.volumeUsd24h 0 > 1000000 then 65 else 45

/-- Layer 6: whale activity (market-cap bands). -/
def whaleLayer (td : TokenData) : ℚ :=
  if jsOr td.marketCap 0 > 100000000 then 80
  else if jsOr td.marketCap 0 > 10000000 then 60 else 40

/-- Layer 7: order book (liquidity-score bands). -/
def orderbookLayer (td : TokenData) : ℚ :=
  if jsOr td.liquidityScore 0 > 50 then 75
  else if jsOr td.liquidityScore 0 > 30 then 55 else 35

/-- Layer 8: cosmic (moon-phase and Kp bonuses, clamped into [0,100]). -/
def cosmicLayer (moon : MoonPhase) (kp : KpIndex) : ℚ :=
  max 0 (min 100 (50 +
    (if moon.phase = "Full Moon" then (15 : ℚ)
      else if moon.phase = "New Moon" then -10 else 0) +
    (if kp.kp > 5 then (10 : ℚ) else if kp.kp < 2 then -5 else 0)))

/-- Layer 9: risk (volatility bands on |24h price change|). -/
def riskLayer (td : TokenData) : ℚ :=
  if |jsOr td.priceChange24h 0| > 50 then 30
  else if |jsOr td.priceChange24h 0| > 20 then 60 else 80

/-- The nine factor weights of the integration layer, in layer order. -/
def scoringWeights : List ℚ :=
  [8/100, 12/100, 15/100, 12/100, 13/100, 10/100, 10/100, 10/100, 10/100]

/-- The weighted master score accumulated by the
`for (const [k, v] of Object.entries(layers))` loop. -/
def masterScore (td : TokenData) (prices : List ℚ) (moon : MoonPhase) (kp : KpIndex) : ℚ :=
  linguisticsLayer td * (8/100) + technicalLayer prices * (12/100) +
    momentumLayer td * (15/100) + sentimentLayer td * (12/100) +
    liquidityLayer td * (13/100) + whaleLayer td * (10/100) +
    orderbookLayer td * (10/100) + cosmicLayer moon kp * (10/100) +
    riskLayer td * (10/100)

/-- The ten layer scores of `analyze10Layers`. -/
structure Layers where
  linguistics : ℚ
  technical : ℚ
  momentum : ℚ
  sentiment : ℚ
  liquidity : ℚ
  whale : ℚ
  orderbook : ℚ
  cosmic : ℚ
  risk : ℚ
  integration : ℤ
deriving DecidableEq

/-- `analyze10Layers(tokenData, prices, moon, kp)`: the nine factor scores
plus the rounded weighted composite (`layers.integration`). -/
def analyze10Layers (td : TokenData) (prices : List ℚ) (moon : MoonPhase) (kp : KpIndex) :
    Layers :=
  { linguistics := linguisticsLayer td
    technical := technicalLayer prices
    momentum := momentumLayer td
    sentiment := sentimentLayer td
    liquidity := liquidityLayer td
    whale := whaleLayer td
    orderbook := orderbookLayer td
    cosmic := cosmicLayer moon kp
    risk := riskLayer td
    integration := jsRound (masterScore td prices moon kp) }

lemma linguisticsLayer_bounds (td : TokenData) :
    0 ≤ linguisticsLayer td ∧ linguisticsLayer td ≤ 100 := by
  unfold linguisticsLayer
  split_ifs <;> constructor <;> norm_num [jsRound]

lemma technicalLayer_bounds (prices : List ℚ) :
    0 ≤ technicalLayer prices ∧ technicalLayer prices ≤ 100 := by
  unfold technicalLayer
  split_ifs <;> constructor <;> norm_num

lemma momentumLayer_bounds (td : TokenData) :
    0 ≤ momentumLayer td ∧ momentumLayer td ≤ 100 := by
  unfold momentumLayer
  split_ifs <;> constructor <;> norm_num

lemma sentimentLayer_bounds (td : TokenData) :
    0 ≤ sentimentLayer td ∧ sentimentLayer td ≤ 100 := by
  unfold sentimentLayer
  split_ifs <;> constructor <;> norm_num

lemma liquidityLayer_bounds (td : TokenData) :
    0 ≤ liquidityLayer td ∧ liquidityLayer td ≤ 100 := by
  unfold liquidityLayer
  split_ifs <;> constructor <;> norm_num

lemma whaleLayer_bounds (td : TokenData) :
    0 ≤ whaleLayer td ∧ whaleLayer td ≤ 100 := by
  unfold whaleLayer
  split_ifs <;> constructor <;> norm_num

lemma orderbookLayer_bounds (td : TokenData) :
    0 ≤ orderbookLayer td ∧ orderbookLayer td ≤ 100 := by
  unfold orderbookLayer
  split_ifs <;> constructor <;> norm_num

lemma cosmicLayer_bounds (moon : MoonPhase) (kp : KpIndex) :
    0 ≤ cosmicLayer moon kp ∧ cosmicLayer moon kp ≤ 100 := by
  unfold cosmicLayer
  constructor
  · exact le_max_left 0 _
  · exact max_le (by norm_num) (min_le_left 100 _)

lemma riskLayer_bounds (td : TokenData) :
    0 ≤ riskLayer td ∧ riskLayer td ≤ 100 := by
  unfold riskLayer
  split_ifs <;> constructor <;> norm_num

lemma masterScore_bounds (td : TokenData) (prices : List ℚ) (moon : MoonPhase) (kp : KpIndex) :
    0 ≤ masterScore td prices moon kp ∧ masterScore td prices moon kp ≤ 100 := by
  obtain ⟨a1, a2⟩ := linguisticsLayer_bounds td
  obtain ⟨b1, b2⟩ := technicalLayer_bounds prices
  obtain ⟨c1, c2⟩ := momentumLayer_bounds td
  obtain ⟨d1, d2⟩ := sentimentLayer_bounds td
  obtain ⟨e1, e2⟩ := liquidityLayer_bounds td
  obtain ⟨f1, f2⟩ := whaleLayer_bounds td
  obtain ⟨g1, g2⟩ := orderbookLayer_bounds td
  obtain ⟨i1, i2⟩ := cosmicLayer_bounds moon kp
  obtain ⟨j1, j2⟩ := riskLayer_bounds td
  unfold masterScore
  constructor <;> nlinarith

lemma jsRound_mem_of_bounds {x : ℚ} (h0 : 0 ≤ x) (h1 : x ≤ 100) :
    0 ≤ jsRound x ∧ jsRound x ≤ 100 := by
  unfold jsRound
  constructor
  · exact Int.le_floor.mpr (by push_cast; linarith)
  · have h : ⌊x + 1/2⌋ ≤ ⌊(201/2 : ℚ)⌋ := Int.floor_le_floor (by linarith)
    have h2 : ⌊(201/2 : ℚ)⌋ = 100 := by norm_num
    omega

/-- **C1.** For every candidate input (including all-null enrichment fields)
and every cosmic snapshot, the composite `integration` score of
`analyze10Layers` is an integer in `[0, 100]`, and the nine factor weights
sum to `1`. -/
theorem analyze10Layers_integration_in_range
    (td : TokenData) (prices : List ℚ) (moon : MoonPhase) (kp : KpIndex) :
    (0 ≤ (analyze10Layers td prices moon kp).integration ∧
      (analyze10Layers td prices moon kp).integration ≤ 100) ∧
    scoringWeights.sum = 1 := by
  obtain ⟨h0, h1⟩ := masterScore_bounds td prices moon kp
  exact ⟨jsRound_mem_of_bounds h0 h1,
    by norm_num [scoringWeights, List.sum_cons, List.sum_nil]⟩

/-- A candidate with every enrichment field null. -/
def nullToken : TokenData :=
  { name := none, symbol := none, priceChange24h := none, rank := none,
    volumeUsd24h := none, marketCap := none, liquidityScore := none }

/-- A fixed cosmic snapshot used for concrete instantiations. -/
def moonA : MoonPhase := { phase := "Waxing Crescent", illumination := 20 }

/-- A fixed geomagnetic reading used for concrete instantiations. -/
def kpA : KpIndex := { kp := 3, level := "Moderate" }

/-- **C2.** For a candidate whose enrichment fields are all null, the scoring
engine (a total function, so it terminates without throwing) gives every
enrichment-dependent factor its fixed nonzero band default for **every**
price history list (momentum 40, sentiment 45, liquidity 45, whale 40,
orderbook 35, risk 80), and RSI defaults to 50 (hence technical 65) whenever
fewer than `period + 1 = 15` prices are given. -/
theorem nullEnrichment_defaults (td : TokenData) (prices : List ℚ)
    (moon : MoonPhase) (kp : KpIndex)
    (h1 : td.priceChange24h = none) (h2 : td.rank = none)
    (h3 : td.volumeUsd24h = none) (h4 : td.marketCap = none)
    (h5 : td.liquidityScore = none) :
    (analyze10Layers td prices moon kp).momentum = 40 ∧
    (analyze10Layers td prices moon kp).sentiment = 45 ∧
    (analyze10Layers td prices moon kp).liquidity = 45 ∧
    (analyze10Layers td prices moon kp).whale = 40 ∧
    (analyze10Layers td prices moon kp).orderbook = 35 ∧
    (analyze10Layers td prices moon kp).risk = 80 ∧
    (analyze10Layers td prices moon kp).momentum ≠ 0 ∧
    (analyze10Layers td prices moon kp).sentiment ≠ 0 ∧
    (analyze10Layers td prices moon kp).liquidity ≠ 0 ∧
    (analyze10Layers td prices moon kp).whale ≠ 0 ∧
    (analyze10Layers td prices moon kp).orderbook ≠ 0 ∧
    (analyze10Layers td prices moon kp).risk ≠ 0 ∧
    (prices.length < 15 →
      calculateRSI prices 14 = 50 ∧
      (analyze10Layers td prices moon kp).technical = 65 ∧
      (analyze10Layers td prices moon kp).technical ≠ 0) := by
  have hmom : (analyze10Layers td prices moon kp).momentum = 40 := by
    simp only [analyze10Layers, momentumLayer, h1, jsOr]
    norm_num
  have hsent : (analyze10Layers td prices moon kp).sentiment = 45 := by
    simp only [analyze10Layers, sentimentLayer, h2, jsOr]
    norm_num
  have hliq : (analyze10Layers td prices moon kp).liquidity = 45 := by
    simp only [analyze10Layers, liquidityLayer, h3, jsOr]
    norm_num
  have hwhale : (analyze10Layers td prices moon kp).whale = 40 := by
    simp only [analyze10Layers, whaleLayer, h4, jsOr]
    norm_num
  have hob : (analyze10Layers td prices moon kp).orderbook = 35 := by
    simp only [analyze10Layers, orderbookLayer, h5, jsOr]
    norm_num
  have hrisk : (analyze10Layers td prices moon kp).risk = 80 := by
    simp only [analyze10Layers, riskLayer, h1, jsOr]
    norm_num
  have himp : prices.length < 15 →
      calculateRSI prices 14 = 50 ∧
      (analyze10Layers td prices moon kp).technical = 65 ∧
      (analyze10Layers td prices moon kp).technical ≠ 0 := by
    intro hp
    have hrsi : calculateRSI prices 14 = 50 := by
      unfold calculateRSI
      rw [if_pos hp]
    have htech : (analyze10Layers td prices moon kp).technical = 65 := by
      simp only [analyze10Layers, technicalLayer, hrsi]
      norm_num
    exact ⟨hrsi, htech, by simp [htech]⟩
  refine ⟨hmom, hsent, hliq, hwhale, hob, hrisk, ?_, ?_, ?_, ?_, ?_, ?_, himp⟩ <;>
    simp [hmom, hsent, hliq, hwhale, hob, hrisk]

/-- Witness for C2 at the all-null token, the empty price history and a
concrete cosmic snapshot. -/
theorem nullEnrichment_defaults_witness :
    (analyze10Layers nullToken [] moonA kpA).momentum = 40 ∧
    (analyze10Layers nullToken [] moonA kpA).sentiment = 45 ∧
    (analyze10Layers nullToken [] moonA kpA).liquidity = 45 ∧
    (analyze10Layers nullToken [] moonA kpA).whale = 40 ∧
    (analyze10Layers nullToken [] moonA kpA).orderbook = 35 ∧
    (analyze10Layers nullToken [] moonA kpA).risk = 80 ∧
    (analyze10Layers nullToken [] moonA kpA).risk ≠ 0 ∧
    calculateRSI ([] : List ℚ) 14 = 50 ∧
    (analyze10Layers nullToken [] moonA kpA).technical = 65 := by
  obtain ⟨hm, hs, hl, hw, ho, hr, _, _, _, _, _, hrne, himp⟩ :=
    nullEnrichment_defaults nullToken [] moonA kpA rfl rfl rfl rfl rfl
  obtain ⟨hrsi, htech, _⟩ := himp (by simp)
  exact ⟨hm, hs, hl, hw, ho, hr, hrne, hrsi, htech⟩

/-! ## Gated access (`validateAndConsumeCode`, `src/index.js` / `src/server.js`) -/

/-- The `{ valid, message }` object returned by the gate. -/
structure GateResult where
  valid : Bool
  message : String
deriving DecidableEq

/-- The `VALID_CODES` set of `index.js` / `server.js`. -/
def VALID_CODES : List String :=
  ["ALICE2025", "DIAMOND_HANDS", "ALPHA_ONLY",
   "INVESTOR_001", "INVESTOR_002", "INVESTOR_003", "INVESTOR_004", "INVESTOR_005",
   "BETA_TESTER_01", "BETA_TESTER_02", "BETA_TESTER_03", "BETA_TESTER_04",
   "BETA_TESTER_05"]

/-- `validateAndConsumeCode(code)` with the mutable `USED_CODES` set made
explicit: takes the current used set and returns the result together with the
new used set.  `dev` is `NODE_ENV === 'development'`; a missing or empty code
is falsy in JavaScript. -/
def validateAndConsumeCode (dev : Bool) (used : List String) (code : Option String) :
    GateResult × List String :=
  match code with
  | none => (⟨false, "No access code provided"⟩, used)
  | some c =>
    if c = "" then (⟨false, "No access code provided"⟩, used)
    else if dev = true ∧ c ∈ VALID_CODES then (⟨true, "Access granted"⟩, used)
    else if c ∈ used then (⟨false, "Access code already used"⟩, used)
    else if c ∉ VALID_CODES then (⟨false, "Invalid access code"⟩, used)
    else (⟨true, "Access granted"⟩, c :: used)

/-- Threads a sequence of gate calls through the used-codes state. -/
def runGate (dev : Bool) (used : List String) (calls : List (Option String)) :
    List String :=
  calls.foldl (fun u c => (validateAndConsumeCode dev u c).2) used

lemma mem_validateAndConsumeCode_used (dev : Bool) (used : List String)
    (code : Option String) {x : String} (hx : x ∈ used) :
    x ∈ (validateAndConsumeCode dev used code).2 := by
  match code with
  | none => exact hx
  | some c =>
    simp only [validateAndConsumeCode]
    split_ifs <;> simp [hx]

lemma mem_runGate (dev : Bool) (used : List String) (calls : List (Option String))
    {x : String} (hx : x ∈ used) : x ∈ runGate dev used calls := by
  induction calls generalizing used with
  | nil => exact hx
  | cons c cs ih =>
    exact ih _ (mem_validateAndConsumeCode_used dev used c hx)

lemma validateAndConsumeCode_valid_elim (used : List String) (c : String)
    (h : (validateAndConsumeCode false used (some c)).1.valid = true) :
    c ≠ "" ∧ c ∉ used ∧ c ∈ VALID_CODES ∧
      (validateAndConsumeCode false used (some c)).2 = c :: used := by
  by_cases hemp : c = ""
  · simp [validateAndConsumeCode, hemp] at h
  · by_cases hused : c ∈ used
    · simp [validateAndConsumeCode, hemp, hused] at h
    · by_cases hval : c ∈ VALID_CODES
      · refine ⟨hemp, hused, hval, ?_⟩
        simp [validateAndConsumeCode, hemp, hused, hval]
      · simp [validateAndConsumeCode, hemp, hused, hval] at h

lemma validateAndConsumeCode_already_used (used2 : List String) (c : String)
    (hne : c ≠ "") (hmem : c ∈ used2) :
    (validateAndConsumeCode false used2 (some c)).1 =
      ⟨false, "Access code already used"⟩ := by
  simp only [validateAndConsumeCode]
  rw [if_neg hne, if_neg (by simp), if_pos hmem]

/-- **C10.** In non-development mode every access code is granted at most
once: once a call with code `c` has returned valid, any later call with `c`
(after any interleaved sequence of other calls) returns invalid with the
"already used" message, because the used set only grows and is consulted
before granting. -/
theorem code_granted_at_most_once (used : List String) (c : String)
    (calls : List (Option String))
    (h : (validateAndConsumeCode false used (some c)).1.valid = true) :
    (validateAndConsumeCode false
        (runGate false (validateAndConsumeCode false used (some c)).2 calls)
        (some c)).1 = ⟨false, "Access code already used"⟩ := by
  obtain ⟨hne, _, _, heq⟩ := validateAndConsumeCode_valid_elim used c h
  have hmem : c ∈ runGate false (validateAndConsumeCode false used (some c)).2 calls := by
    rw [heq]
    exact mem_runGate false _ calls (List.mem_cons_self c used)
  exact validateAndConsumeCode_already_used _ c hne hmem

/-- Witness for C10: `ALICE2025` is granted on a fresh gate, and after an
interleaved call it is rejected as already used. -/
theorem code_granted_at_most_once_witness :
    (validateAndConsumeCode false [] (some "ALICE2025")).1.valid = true ∧
    (validateAndConsumeCode false
        (runGate false (validateAndConsumeCode false [] (some "ALICE2025")).2
          [some "DIAMOND_HANDS"])
        (some "ALICE2025")).1 = ⟨false, "Access code already used"⟩ :=
  ⟨by decide, code_granted_at_most_once [] "ALICE2025" [some "DIAMOND_HANDS"] (by decide)⟩

/-! ## Resilient fetcher (`fetchJSON` in `src/index.js`,
`withTimeout` / `fetchJSONWithRetry` in `src/unnamed/part_000`) -/

/-- The possible outcomes of one HTTP attempt, as distinguished by the
fetch wrappers. -/
inductive FetchOutcome (α : Type) where
  | success (v : α)
  | timeout
  | netError
  | htmlBody
  | parseFail
deriving DecidableEq

/-- `fetchJSON` from `index.js`: a single attempt that resolves the parsed
JSON on success and resolves `null` (modelled `none`) on timeout, connection
error, HTML body or parse failure — it never rejects. -/
def fetchJSON {α : Type} (outcome : FetchOutcome α) : Option α :=
  match outcome with
  | .success v => some v
  | .timeout => none
  | .netError => none
  | .htmlBody => none
  | .parseFail => none

/-- The retry loop of `fetchJSONWithRetry` from `part_000`.  `upstream i` is
the result of `withTimeout` on the `i`-th attempt (`Except.error` models a
rejection).  Returns the final result (`none` models falling off the loop
when `attempts = 0`, i.e. JavaScript `undefined`), the number of attempts
made, and the list of backoff delays slept (in ms). -/
def retryLoop {α : Type} (upstream : ℕ → Except String α) :
    ℕ → ℕ → ℕ → List ℕ → Option (Except String α) × ℕ × List ℕ
  | 0, i, _, ds => (none, i, ds.reverse)
  | rem + 1, i, delay, ds =>
    match upstream i with
    | .ok v => (some (.ok v), i + 1, ds.reverse)
    | .error e =>
      if rem = 0 then (some (.error e), i + 1, ds.reverse)
      else retryLoop upstream rem (i + 1) (delay * 2) (delay :: ds)

/-- `fetchJSONWithRetry(url, attempts = 3)` from `part_000`: up to `attempts`
tries of `withTimeout`, sleeping `delay` (starting at 250 ms and doubling)
between failures, and rethrowing the last error when the final attempt
fails. -/
def fetchJSONWithRetry {α : Type} (upstream : ℕ → Except String α)
    (attempts : ℕ) : Option (Except String α) × ℕ × List ℕ :=
  retryLoop upstream attempts 0 250 []

/-- An upstream that times out on every attempt. -/
def failingUpstream : ℕ → Except String Unit := fun _ => .error "timeout"

/-- **C3 counterexample.** When every attempt times out,
`fetchJSONWithRetry` propagates the exception to its caller (the result is
the rethrown `timeout` error, not a no-data signal). -/
theorem fetchJSONWithRetry_throws_counterexample :
    (fetchJSONWithRetry failingUpstream 3).1 = some (Except.error "timeout") := rfl

lemma retryLoop_succ {α : Type} (upstream : ℕ → Except String α)
    (rem i delay : ℕ) (ds : List ℕ) :
    retryLoop upstream (rem + 1) i delay ds =
      match upstream i with
      | .ok v => (some (.ok v), i + 1, ds.reverse)
      | .error e =>
        if rem = 0 then (some (.error e), i + 1, ds.reverse)
        else retryLoop upstream rem (i + 1) (delay * 2) (delay :: ds) := rfl

/-- **C3 amended.** `index.js`'s `fetchJSON` makes a single attempt and
returns the `null` no-data signal on every failure, never an exception;
`part_000`'s `fetchJSONWithRetry`, when every attempt fails, makes exactly
the configured number of attempts (default 3) with exponential backoff
delays 250 ms then 500 ms, but then propagates the final error to its caller
instead of returning a no-data signal. -/
theorem fetchJSONWithRetry_allFail {α : Type} (upstream : ℕ → Except String α)
    (es : ℕ → String) (h : ∀ i, i < 3 → upstream i = .error (es i)) :
    fetchJSONWithRetry upstream 3 = (some (.error (es 2)), 3, [250, 500]) ∧
    (∀ oc : FetchOutcome α,
      fetchJSON oc = none ∨ ∃ v, oc = .success v ∧ fetchJSON oc = some v) := by
  constructor
  · show retryLoop upstream 3 0 250 [] = _
    rw [show (3 : ℕ) = 2 + 1 from rfl, retryLoop_succ, h 0 (by norm_num)]
    rw [show (2 : ℕ) = 1 + 1 from rfl]
    simp only [retryLoop_succ, h 1 (by norm_num), h 2 (by norm_num)]
    norm_num
  · intro oc
    cases oc with
    | success v => exact Or.inr ⟨v, rfl, rfl⟩
    | timeout => exact Or.inl rfl
    | netError => exact Or.inl rfl
    | htmlBody => exact Or.inl rfl
    | parseFail => exact Or.inl rfl

/-- Witness for the amended C3 at the always-timing-out upstream. -/
theorem fetchJSONWithRetry_allFail_witness :
    fetchJSONWithRetry failingUpstream 3 =
      (some (.error "timeout"), 3, [250, 500]) ∧
    (∀ oc : FetchOutcome Unit,
      fetchJSON oc = none ∨ ∃ v, oc = .success v ∧ fetchJSON oc = some v) :=
  fetchJSONWithRetry_allFail failingUpstream (fun _ => "timeout")
    (fun _ _ => rfl)

/-! ## Dexscreener small-caps pipeline (`buildSmallCapsList`, `src/index.js`;
`buildSmallcaps` in `src/unnamed/part_000` is the same algorithm with
`LIMIT_RESULTS = 60` and `MIN_LIQ_USD = 3000`). -/

/-- `{ buys, sells }` transaction counts of one window. -/
structure Txns where
  buys : ℚ
  sells : ℚ
deriving DecidableEq

/-- A Dexscreener pair, restricted to the fields the pipeline reads. -/
structure Pair where
  chainId : String
  labels : List String
  fdv : Option ℚ
  liquidityUsd : Option ℚ
  pairCreatedAt : Option ℚ
  baseTokenSymbol : Option String
  baseTokenName : Option String
  baseTokenAddress : Option String
  url : Option String
  pairAddress : Option String
  priceUsd : Option ℚ
  txnsM5 : Option Txns
  txnsM15 : Option Txns
  changeM5 : Option ℚ
  changeH1 : Option ℚ
deriving DecidableEq

/-- Config defaults of `index.js` (`process.env` unset). -/
def FDV_LIMIT : ℚ := 500000

/-- Minimum liquidity filter default. -/
def MIN_LIQ_USD : ℚ := 2000

/-- Maximum pair age in minutes. -/
def MAX_AGE_MIN : ℚ := 720

/-- Result-count cap default (`LIMIT_RESULTS || 50`). -/
def LIMIT_RESULTS : ℕ := 50

/-- `REQUIRE_PUMPFUN` default (`'false'`). -/
def REQUIRE_PUMPFUN : Bool := false

/-- `minutesSince(ms)` with `Date.now()` passed explicitly. -/
def minutesSince (now ms : ℚ) : ℚ := (now - ms) / 60000

/-- `scorePair(p)`: buy/sell imbalance over 5 and 15 minutes plus momentum. -/
def scorePair (p : Pair) : ℚ :=
  ((p.txnsM5.getD ⟨0, 0⟩).buys - (p.txnsM5.getD ⟨0, 0⟩).sells) +
    ((p.txnsM15.getD ⟨0, 0⟩).buys - (p.txnsM15.getD ⟨0, 0⟩).sells) +
    ((p.changeM5.getD 0) + (p.changeH1.getD 0)) / 5

/-- Filter `(p.fdv ?? Infinity) <= FDV_LIMIT`: a missing FDV never passes. -/
def fdvOk (p : Pair) : Bool :=
  match p.fdv with
  | some v => decide (v ≤ FDV_LIMIT)
  | none => false

/-- Filter `(p.liquidity?.usd ?? 0) >= MIN_LIQ_USD`. -/
def liqOk (p : Pair) : Bool := decide (MIN_LIQ_USD ≤ p.liquidityUsd.getD 0)

/-- Filter on pair age (`Number.isFinite` always holds over `ℚ`). -/
def ageOk (now : ℚ) (p : Pair) : Bool :=
  decide (minutesSince now (p.pairCreatedAt.getD 0) ≤ MAX_AGE_MIN)

/-- Filter `p.chainId === 'solana'`. -/
def chainOk (p : Pair) : Bool := decide (p.chainId = "solana")

/-- `/pump/i.test(label)`. -/
def pumpLabel (l : String) : Bool := (l.toLower.splitOn "pump").length > 1

/-- JavaScript `Array.prototype.sort` with comparator `b.score - a.score`:
a stable sort descending by the rational key. -/
def jsSortDesc {β : Type} (key : β → ℚ) (l : List β) : List β :=
  l.insertionSort (fun a b => key b ≤ key a)

/-- One entry of the `/api/smallcaps` result list. -/
structure SmallCapItem where
  symbol : Option String
  name : Option String
  tokenAddress : Option String
  pairUrl : Option String
  pairAddress : Option String
  fdv : Option ℚ
  priceUsd : Option ℚ
  liqUsd : Option ℚ
  ageMinutes : ℤ
  txns5m : Option Txns
  txns15m : Option Txns
  change5m : Option ℚ
  change1h : Option ℚ
  labels : List String
  score : ℚ
deriving DecidableEq

/-- The final `.map` of `buildSmallCapsList`. -/
def mkItem (now : ℚ) (p : Pair) (score : ℚ) : SmallCapItem :=
  { symbol := p.baseTokenSymbol, name := p.baseTokenName,
    tokenAddress := p.baseTokenAddress, pairUrl := p.url,
    pairAddress := p.pairAddress, fdv := p.fdv, priceUsd := p.priceUsd,
    liqUsd := p.liquidityUsd,
    ageMinutes := jsRound (minutesSince now (p.pairCreatedAt.getD 0)),
    txns5m := p.txnsM5, txns15m := p.txnsM15, change5m := p.changeM5,
    change1h := p.changeH1, labels := p.labels, score := score }

/-- `buildSmallCapsList()` with the upstream pair list and the clock passed
explicitly: chain filter, optional pump-label filter, FDV/liquidity/age
filters, score, stable sort descending, truncate to `LIMIT_RESULTS`, map to
items. -/
def buildSmallCapsList (upstream : List Pair) (now : ℚ) : List SmallCapItem :=
  let pairs := upstream.filter chainOk
  let pairs2 := if REQUIRE_PUMPFUN then pairs.filter (fun p => p.labels.any pumpLabel)
    else pairs
  let scored := ((((pairs2.filter fdvOk).filter liqOk).filter (ageOk now)).map
    (fun p => (p, scorePair p)))
  ((jsSortDesc (fun x => x.2) scored).take LIMIT_RESULTS).map
    (fun x => mkItem now x.1 x.2)

/-- A concrete pair passing every filter (`fdv 100000 ≤ 500000`,
`liquidity 5000 ≥ 2000`, created at the epoch). -/
def p0 : Pair :=
  { chainId := "solana", labels := [], fdv := some 100000,
    liquidityUsd := some 5000, pairCreatedAt := some 0,
    baseTokenSymbol := some "TKN", baseTokenName := some "Token",
    baseTokenAddress := some "ADDR", url := none, pairAddress := some "PAIR",
    priceUsd := some 1, txnsM5 := none, txnsM15 := none, changeM5 := none,
    changeH1 := none }

lemma p0_chainOk : chainOk p0 = true := by simp [chainOk, p0]

lemma p0_fdvOk : fdvOk p0 = true := by
  simp only [fdvOk, p0, decide_eq_true_eq, FDV_LIMIT]
  norm_num

lemma p0_liqOk : liqOk p0 = true := by
  simp only [liqOk, p0, decide_eq_true_eq, MIN_LIQ_USD, Option.getD_some]
  norm_num

lemma p0_ageOk : ageOk 0 p0 = true := by
  simp only [ageOk, p0, decide_eq_true_eq, minutesSince, MAX_AGE_MIN, Option.getD_some]
  norm_num

/-- **C4 amended.** `buildSmallCapsList` performs no deduplication: when the
upstream list contains the same pair twice (same identifier) and the pair
passes all filters, the output contains two entries with that identifier. -/
theorem buildSmallCapsList_no_dedup (p : Pair) (now : ℚ)
    (h1 : chainOk p = true) (h2 : fdvOk p = true) (h3 : liqOk p = true)
    (h4 : ageOk now p = true) :
    (buildSmallCapsList [p, p] now).map (fun it => it.tokenAddress) =
      [p.baseTokenAddress, p.baseTokenAddress] := by
  have hfilter :
      ((((([p, p] : List Pair).filter chainOk).filter fdvOk).filter liqOk).filter
        (ageOk now)) = [p, p] := by
    simp [List.filter_cons, h1, h2, h3, h4]
  have hsort : jsSortDesc (fun x => x.2) [(p, scorePair p), (p, scorePair p)] =
      [(p, scorePair p), (p, scorePair p)] := by
    simp [jsSortDesc, List.insertionSort, List.orderedInsert, le_refl]
  simp only [buildSmallCapsList, REQUIRE_PUMPFUN, Bool.false_eq_true, if_false,
    hfilter, List.map_cons, List.map_nil, hsort]
  rw [List.take_of_length_le (by norm_num [LIMIT_RESULTS])]
  simp [mkItem]

/-- Witness for the amended C4 at the concrete passing pair `p0`. -/
theorem buildSmallCapsList_no_dedup_witness :
    (buildSmallCapsList [p0, p0] 0).map (fun it => it.tokenAddress) =
      [p0.baseTokenAddress, p0.baseTokenAddress] :=
  buildSmallCapsList_no_dedup p0 0 p0_chainOk p0_fdvOk p0_liqOk p0_ageOk

lemma buildSmallCapsList_p0_pair :
    buildSmallCapsList [p0, p0] 0 =
      [mkItem 0 p0 (scorePair p0), mkItem 0 p0 (scorePair p0)] := by
  have hfilter :
      ((((([p0, p0] : List Pair).filter chainOk).filter fdvOk).filter liqOk).filter
        (ageOk 0)) = [p0, p0] := by
    simp [List.filter_cons, p0_chainOk, p0_fdvOk, p0_liqOk, p0_ageOk]
  have hsort : jsSortDesc (fun x => x.2) [(p0, scorePair p0), (p0, scorePair p0)] =
      [(p0, scorePair p0), (p0, scorePair p0)] := by
    simp [jsSortDesc, List.insertionSort, List.orderedInsert, le_refl]
  simp only [buildSmallCapsList, REQUIRE_PUMPFUN, Bool.false_eq_true, if_false,
    hfilter, List.map_cons, List.map_nil, hsort]
  rw [List.take_of_length_le (by norm_num [LIMIT_RESULTS])]
  simp

/-- **C4 counterexample.** On an upstream list with two entries sharing the
normalized identifier `"ADDR"`, the output contains two (not exactly one)
entries for that identifier. -/
theorem buildSmallCapsList_duplicate_counterexample :
    ((buildSmallCapsList [p0, p0] 0).filter
      (fun it => decide (it.tokenAddress = some "ADDR"))).length = 2 := by
  rw [buildSmallCapsList_p0_pair]
  simp [mkItem, p0]

/-- **C7 amended.** The discovery output is capped at `LIMIT_RESULTS = 50`
candidates (the `index.js` default; `part_000` uses 60), not 40. -/
theorem buildSmallCapsList_length_le_50 (upstream : List Pair) (now : ℚ) :
    (buildSmallCapsList upstream now).length ≤ 50 := by
  simp only [buildSmallCapsList]
  rw [List.length_map]
  exact (List.length_take_le _ _).trans (by norm_num [LIMIT_RESULTS])

/-- **C7 counterexample.** An upstream response with 41 pairs passing every
filter yields 41 > 40 candidates: the claimed cap of 40 does not hold. -/
theorem buildSmallCapsList_over_40_counterexample :
    40 < (buildSmallCapsList (List.replicate 41 p0) 0).length := by
  have hfilter :
      (((((List.replicate 41 p0).filter chainOk).filter fdvOk).filter liqOk).filter
        (ageOk 0)) = List.replicate 41 p0 := by
    simp [List.filter_replicate, p0_chainOk, p0_fdvOk, p0_liqOk, p0_ageOk]
  have hsort : jsSortDesc (fun x : Pair × ℚ => x.2)
      (List.replicate 41 (p0, scorePair p0)) =
      List.replicate 41 (p0, scorePair p0) := by
    apply List.Sorted.insertionSort_eq
    exact List.pairwise_replicate.mpr (Or.inr (le_refl _))
  simp only [buildSmallCapsList, REQUIRE_PUMPFUN, Bool.false_eq_true, if_false,
    hfilter, List.map_replicate, hsort]
  rw [List.take_of_length_le (by norm_num [LIMIT_RESULTS])]
  simp

/-! ## Analysis orchestrator (`analyzeTokens`, `src/server.js`).
For each candidate of the (already sliced) trending list, `getTokenDetails`
yields an optional token record and a price history; candidates whose fetch
failed are skipped by `continue`, the rest are scored and the result is
sorted by `masterScore` descending. -/

/-- The per-candidate loop and final sort of `analyzeTokens`, with the fetch
results passed explicitly: `c.1` is the `coinData` result (`none` = failed
fetch), `c.2` the extracted price series. -/
def analyzeTokensOn (fetched : List (Option TokenData × List ℚ))
    (moon : MoonPhase) (kp : KpIndex) : List (TokenData × Layers) :=
  jsSortDesc (fun x => ((x.2.integration : ℤ) : ℚ))
    (fetched.filterMap (fun c => c.1.map (fun td => (td, analyze10Layers td c.2 moon kp))))

/-- **C5 amended.** The analysis stage keeps exactly the candidates whose
market-data fetch succeeded — candidates with a failed fetch are dropped, so
the output length is the number of successful fetches, not the input length —
and the output is sorted by composite score descending rather than input
order. -/
theorem analyzeTokensOn_drops_failures (fetched : List (Option TokenData × List ℚ))
    (moon : MoonPhase) (kp : KpIndex) :
    (analyzeTokensOn fetched moon kp).length =
      fetched.countP (fun c => c.1.isSome) ∧
    List.Pairwise (fun a b => b.2.integration ≤ a.2.integration)
      (analyzeTokensOn fetched moon kp) := by
  constructor
  · unfold analyzeTokensOn jsSortDesc
    rw [List.length_insertionSort]
    induction fetched with
    | nil => simp
    | cons c cs ih =>
      cases h : c.1 with
      | none => simp [List.filterMap_cons, List.countP_cons, h, ih]
      | some td => simp [List.filterMap_cons, List.countP_cons, h, ih]
  · unfold analyzeTokensOn jsSortDesc
    letI : IsTotal (TokenData × Layers)
        (fun a b => ((b.2.integration : ℤ) : ℚ) ≤ ((a.2.integration : ℤ) : ℚ)) :=
      ⟨fun _ _ => le_total _ _⟩
    letI : IsTrans (TokenData × Layers)
        (fun a b => ((b.2.integration : ℤ) : ℚ) ≤ ((a.2.integration : ℤ) : ℚ)) :=
      ⟨fun _ _ _ h1 h2 => le_trans h2 h1⟩
    have h := List.sorted_insertionSort
      (fun (a b : TokenData × Layers) =>
        ((b.2.integration : ℤ) : ℚ) ≤ ((a.2.integration : ℤ) : ℚ))
      (fetched.filterMap (fun c => c.1.map (fun td => (td, analyze10Layers td c.2 moon kp))))
    exact h.imp (fun hab => by exact_mod_cast hab)

/-- **C5 counterexample.** A one-candidate input whose market-data fetch
failed produces an empty output: the candidate is dropped instead of passing
through with null enrichment, so output length 0 ≠ input length 1. -/
theorem analyzeTokensOn_drop_counterexample :
    (analyzeTokensOn [((none : Option TokenData), ([] : List ℚ))] moonA kpA).length = 0 ∧
    [((none : Option TokenData), ([] : List ℚ))].length = 1 :=
  ⟨rfl, rfl⟩

/-! ## Archetype classifier (`assignArchetype` in `src/server.js` /
`src/index.js`; `archetype` in `src/unnamed/part_000`). -/

/-- The ordered predicate list of `assignArchetype` (`server.js` /
`index.js`): the last entry, `Cultist`, is conditional (`s < 30`). -/
def archetypeConds : List (String × (ℚ → ℚ → ℚ → Bool)) :=
  [("Prophet", fun s v _ => decide (s ≥ 90 ∧ v > 80)),
   ("Seer", fun s v _ => decide (s ≥ 80 ∧ v > 60)),
   ("Trickster", fun s _ st => decide (s ≥ 70 ∧ st < 50)),
   ("Observer", fun s v _ => decide (s ≥ 60 ∧ v < 50)),
   ("Guardian", fun s _ _ => decide (s ≥ 50 ∧ s < 70)),
   ("Shadow", fun s v _ => decide (s < 50 ∧ v > 70)),
   ("Echo", fun s v _ => decide (s < 40 ∧ v < 40)),
   ("Cultist", fun s _ _ => decide (s < 30))]

/-- The ordered predicate list of `archetype` in `part_000`: identical except
that the last entry is the unconditional catch-all `['Cultist', _=>true]`. -/
def archetypeCondsCatchAll : List (String × (ℚ → ℚ → ℚ → Bool)) :=
  [("Prophet", fun s v _ => decide (s ≥ 90 ∧ v > 80)),
   ("Seer", fun s v _ => decide (s ≥ 80 ∧ v > 60)),
   ("Trickster", fun s _ st => decide (s ≥ 70 ∧ st < 50)),
   ("Observer", fun s v _ => decide (s ≥ 60 ∧ v < 50)),
   ("Guardian", fun s _ _ => decide (s ≥ 50 ∧ s < 70)),
   ("Shadow", fun s v _ => decide (s < 50 ∧ v > 70)),
   ("Echo", fun s v _ => decide (s < 40 ∧ v < 40)),
   ("Cultist", fun _ _ _ => true)]

/-- The `for (const a of ar) if (a.condition(...)) return a.name` loop. -/
def firstMatch (s v st : ℚ) : List (String × (ℚ → ℚ → ℚ → Bool)) → Option String
  | [] => none
  | a :: rest => if a.2 s v st then some a.1 else firstMatch s v st rest

/-- `assignArchetype(score, volume, sentiment)`: first matching predicate,
with the out-of-list fallback `return 'Observer'` after the loop. -/
def assignArchetype (s v st : ℚ) : String :=
  (firstMatch s v st archetypeConds).getD "Observer"

/-- **C6 counterexample.** At `(score, volume, sentiment) = (75, 55, 60)` no
predicate of the `server.js`/`index.js` list matches — so its last entry is
not an unconditional catch-all — and the returned label `'Observer'` comes
from the out-of-list fallback. -/
theorem assignArchetype_fallback_counterexample :
    firstMatch 75 55 60 archetypeConds = none ∧
    assignArchetype 75 55 60 = "Observer" := by
  constructor
  · show firstMatch 75 55 60 archetypeConds = none
    simp only [archetypeConds, firstMatch]
    norm_num
  · rfl

/-- **C6 amended.** The classifier returns the name of the first predicate in
its fixed ordered list that holds; in the `part_000` variant the last entry is
an unconditional catch-all so some list entry always decides the result, but
in the `server.js`/`index.js` variant the last entry is conditional (`s < 30`)
and when no entry matches the fixed out-of-list fallback `'Observer'` is
returned. -/
theorem archetype_first_match (s v st : ℚ) :
    (∃ nm, firstMatch s v st archetypeCondsCatchAll = some nm) ∧
    (firstMatch s v st archetypeConds = none → assignArchetype s v st = "Observer") ∧
    (∀ nm, firstMatch s v st archetypeConds = some nm → assignArchetype s v st = nm) := by
  refine ⟨?_, ?_, ?_⟩
  · simp only [archetypeCondsCatchAll, firstMatch]
    split_ifs <;> exact ⟨_, rfl⟩
  · intro h
    simp [assignArchetype, h]
  · intro nm h
    simp [assignArchetype, h]

/-- Witness for the amended C6 at `(75, 55, 60)`: the catch-all list always
matches, and the fallback label is returned by the other variant there. -/
theorem archetype_first_match_witness :
    (∃ nm, firstMatch 75 55 60 archetypeCondsCatchAll = some nm) ∧
    assignArchetype 75 55 60 = "Observer" :=
  ⟨(archetype_first_match 75 55 60).1,
    (archetype_first_match 75 55 60).2.1 (by
      show firstMatch 75 55 60 archetypeConds = none
      simp only [archetypeConds, firstMatch]
      norm_num)⟩

/-! ## Micro-cap scanner (`getMicroCapGems`, `src/unnamed/part_001`).
The loop over the first 20 Pump.fun tokens keeps those with resolved market
cap under 500k; if fewer than 5 result, exactly 10 fallback gems (with
randomized metrics, passed here as an explicit list) are appended; the result
is sorted by `fdv` ascending and sliced to 20. -/

/-- One entry of the micro-cap result list (the fields are fabricated from
the upstream token and random values; only their presence matters here). -/
structure Gem where
  name : String
  symbol : String
  contractAddress : String
  fdv : ℚ
deriving DecidableEq

/-- JavaScript `sort((a, b) => a.fdv - b.fdv)`: stable ascending sort. -/
def jsSortAsc {β : Type} (key : β → ℚ) (l : List β) : List β :=
  l.insertionSort (fun a b => key a ≤ key b)

/-- The reals kept by the `mcap < 500000` loop over the first 20 upstream
tokens (`x.1` is the resolved market cap, `x.2` the gem built from it). -/
def microResults (pump : List (ℚ × Gem)) : List Gem :=
  (pump.take 20).filterMap (fun x => if x.1 < 500000 then some x.2 else none)

/-- `getMicroCapGems()` with the upstream tokens and the randomized fallback
gems passed explicitly. -/
def getMicroCapGems (pump : List (ℚ × Gem)) (fallbackGems : List Gem) : List Gem :=
  (jsSortAsc (fun g => g.fdv)
    (if (microResults pump).length < 5 then microResults pump ++ fallbackGems
      else microResults pump)).take 20

/-- **C8 amended.** Only the `part_001` micro-cap scanner pads its result:
whenever fewer than 5 real candidates survive the market-cap filter it
appends its 10 fallback gems, so its output always has at least 5 entries and
is never empty.  The `index.js` discovery (see the counterexample) emits no
synthetic fallback at all. -/
theorem getMicroCapGems_never_empty (pump : List (ℚ × Gem)) (fb : List Gem)
    (hfb : fb.length = 10) :
    5 ≤ (getMicroCapGems pump fb).length ∧ getMicroCapGems pump fb ≠ [] := by
  have key : 5 ≤ (getMicroCapGems pump fb).length := by
    simp only [getMicroCapGems, jsSortAsc]
    rw [List.length_take, List.length_insertionSort]
    split_ifs with h
    · rw [List.length_append, hfb]
      omega
    · omega
  refine ⟨key, ?_⟩
  intro hnil
  rw [hnil] at key
  simp at key

/-- Witness for the amended C8: with every upstream call failing (empty
pump list) and the 10 fallback gems, the output is non-empty. -/
theorem getMicroCapGems_never_empty_witness :
    5 ≤ (getMicroCapGems []
      (List.replicate 10 ⟨"BABY PEPE", "BABY", "SolA", 20000⟩)).length ∧
    getMicroCapGems []
      (List.replicate 10 ⟨"BABY PEPE", "BABY", "SolA", 20000⟩) ≠ [] :=
  getMicroCapGems_never_empty [] _ (by simp)

/-- **C8 counterexample.** The `index.js` discovery stage emits no synthetic
candidates: when the upstream yields nothing (e.g. every call failed,
`r?.pairs || []`), the output handed downstream is empty — fewer than 5
candidates and no fallback. -/
theorem buildSmallCapsList_empty_counterexample :
    buildSmallCapsList [] 0 = [] ∧ (buildSmallCapsList [] 0).length < 5 := by
  have h : buildSmallCapsList [] 0 = [] := rfl
  exact ⟨h, by rw [h]; norm_num⟩

/-! ## Recall store.

Modelled from the spec: no Recall Store implementation exists in the
repository sources under `src/` (no persistence code at all); the definitions
below follow §3 ("RecallEntry … keyed by identifier, capped to the
most-recent 500 distinct identifiers system-wide, oldest evicted on overflow,
newest entries of a batch take priority over existing ones with the same
key") and §4.6 ("`merge(newEntries)` unions new entries with the existing
persisted set keyed by normalized identifier (new entries win on key
collision), truncates to the most recent 500 by insertion/recency order"). -/

/-- Modelled from the spec: a persisted recall entry, keyed by identifier,
carrying a representative payload. -/
structure RecallEntry where
  identifier : String
  score : ℤ
deriving DecidableEq

/-- Modelled from the spec: case-normalization of an identifier before use
as a dedup key. -/
def normId (s : String) : String := String.mk (s.data.map Char.toLower)

/-- Modelled from the spec: keep the first occurrence of each normalized
key, in order. -/
def dedupByKey (l : List RecallEntry) : List RecallEntry :=
  match l with
  | [] => []
  | e :: rest =>
    e :: dedupByKey (rest.filter (fun x => decide (normId x.identifier ≠ normId e.identifier)))
termination_by l.length
decreasing_by
  simp only [List.length_cons]
  exact Nat.lt_succ_of_le (List.length_filter_le _ _)

/-- Modelled from the spec: `merge(newEntries)` — new entries first (they win
on key collision), deduplicate by normalized key, truncate to the most recent
500 in recency order. -/
def recallMerge (stored batch : List RecallEntry) : List RecallEntry :=
  (dedupByKey (batch ++ stored)).take 500

lemma dedupByKey_nil : dedupByKey [] = [] := by rw [dedupByKey]

lemma dedupByKey_cons (e : RecallEntry) (rest : List RecallEntry) :
    dedupByKey (e :: rest) =
      e :: dedupByKey
        (rest.filter (fun x => decide (normId x.identifier ≠ normId e.identifier))) := by
  rw [dedupByKey]

lemma mem_of_mem_dedupByKey :
    ∀ (n : ℕ) (l : List RecallEntry), l.length ≤ n → ∀ x ∈ dedupByKey l, x ∈ l := by
  intro n
  induction n with
  | zero =>
    intro l hl x hx
    rw [List.length_eq_zero.mp (Nat.le_zero.mp hl)] at hx ⊢
    rwa [dedupByKey_nil] at hx
  | succ n ih =>
    intro l hl x hx
    match l with
    | [] => rwa [dedupByKey_nil] at hx
    | e :: rest =>
      rw [dedupByKey_cons] at hx
      rcases List.mem_cons.mp hx with h | h
      · exact h ▸ List.mem_cons_self _ _
      · have hlen : (rest.filter
            (fun x => decide (normId x.identifier ≠ normId e.identifier))).length ≤ n := by
          have h1 := List.length_filter_le
            (fun x => decide (normId x.identifier ≠ normId e.identifier)) rest
          have h2 : rest.length + 1 ≤ n + 1 := by simpa using hl
          omega
        exact List.mem_cons_of_mem _ (List.mem_of_mem_filter (ih _ hlen x h))

lemma dedupByKey_keys_nodup :
    ∀ (n : ℕ) (l : List RecallEntry), l.length ≤ n →
      ((dedupByKey l).map (fun e => normId e.identifier)).Nodup := by
  intro n
  induction n with
  | zero =>
    intro l hl
    rw [List.length_eq_zero.mp (Nat.le_zero.mp hl), dedupByKey_nil]
    exact List.nodup_nil
  | succ n ih =>
    intro l hl
    match l with
    | [] =>
      rw [dedupByKey_nil]
      exact List.nodup_nil
    | e :: rest =>
      rw [dedupByKey_cons, List.map_cons, List.nodup_cons]
      have hlen : (rest.filter
          (fun x => decide (normId x.identifier ≠ normId e.identifier))).length ≤ n := by
        have h1 := List.length_filter_le
          (fun x => decide (normId x.identifier ≠ normId e.identifier)) rest
        have h2 : rest.length + 1 ≤ n + 1 := by simpa using hl
        omega
      refine ⟨?_, ih _ hlen⟩
      intro hmem
      obtain ⟨x, hx, hkey⟩ := List.mem_map.mp hmem
      have hx2 := mem_of_mem_dedupByKey _ _ le_rfl x hx
      have := List.of_mem_filter hx2
      rw [decide_eq_true_eq] at this
      exact this hkey

lemma dedupByKey_append (batch : List RecallEntry)
    (hnd : (batch.map (fun e => normId e.identifier)).Nodup) (rest : List RecallEntry) :
    ∃ t, dedupByKey (batch ++ rest) = batch ++ t := by
  induction batch generalizing rest with
  | nil => exact ⟨dedupByKey rest, by simp⟩
  | cons e bs ih =>
    rw [List.map_cons, List.nodup_cons] at hnd
    rw [List.cons_append, dedupByKey_cons, List.filter_append]
    have hbs : bs.filter (fun x => decide (normId x.identifier ≠ normId e.identifier)) = bs := by
      apply List.filter_eq_self.mpr
      intro a ha
      rw [decide_eq_true_eq]
      intro heq
      exact hnd.1 (heq ▸ List.mem_map_of_mem (fun e => normId e.identifier) ha)
    rw [hbs]
    obtain ⟨t, ht⟩ := ih hnd.2
      (rest.filter (fun x => decide (normId x.identifier ≠ normId e.identifier)))
    exact ⟨t, by rw [ht, List.cons_append]⟩

lemma dedupByKey_eq_self (l : List RecallEntry)
    (hnd : (l.map (fun e => normId e.identifier)).Nodup) : dedupByKey l = l := by
  induction l with
  | nil => exact dedupByKey_nil
  | cons e rest ih =>
    rw [List.map_cons, List.nodup_cons] at hnd
    rw [dedupByKey_cons]
    have hfilter :
        rest.filter (fun x => decide (normId x.identifier ≠ normId e.identifier)) = rest := by
      apply List.filter_eq_self.mpr
      intro a ha
      rw [decide_eq_true_eq]
      intro heq
      exact hnd.1 (heq ▸ List.mem_map_of_mem (fun e => normId e.identifier) ha)
    rw [hfilter, ih hnd.2]

/-- **C9.** After merging batches totaling more than 500 distinct normalized
identifiers, the persisted set has size exactly 500, holds no duplicate keys,
and a batch (of distinct keys, within the cap) is contained whole — its
entries beat stored entries with the same key. -/
theorem recallMerge_caps_at_500 (stored batch : List RecallEntry)
    (hgt : 500 < (dedupByKey (batch ++ stored)).length)
    (hb : batch.length ≤ 500)
    (hnd : (batch.map (fun e => normId e.identifier)).Nodup) :
    (recallMerge stored batch).length = 500 ∧
    ((recallMerge stored batch).map (fun e => normId e.identifier)).Nodup ∧
    ∀ e ∈ batch, e ∈ recallMerge stored batch := by
  refine ⟨?_, ?_, ?_⟩
  · unfold recallMerge
    rw [List.length_take]
    omega
  · have h := dedupByKey_keys_nodup (batch ++ stored).length (batch ++ stored) le_rfl
    exact h.sublist ((List.take_sublist 500 _).map _)
  · intro e he
    obtain ⟨t, ht⟩ := dedupByKey_append batch hnd stored
    unfold recallMerge
    rw [ht, List.take_append_eq_append_take, List.take_of_length_le hb]
    exact List.mem_append_left _ he

/-- 501 recall entries with pairwise distinct normalized identifiers. -/
def recallStored501 : List RecallEntry :=
  (List.range 501).map (fun i => ⟨String.mk (List.replicate i 'a'), 0⟩)

lemma recallStored501_keys_nodup :
    (recallStored501.map (fun e => normId e.identifier)).Nodup := by
  unfold recallStored501
  rw [List.map_map]
  have hfun : ((fun e : RecallEntry => normId e.identifier) ∘
      (fun i => (⟨String.mk (List.replicate i 'a'), 0⟩ : RecallEntry))) =
      fun i => String.mk (List.replicate i 'a') := by
    funext i
    show normId (String.mk (List.replicate i 'a')) = String.mk (List.replicate i 'a')
    unfold normId
    rw [show (String.mk (List.replicate i 'a')).data = List.replicate i 'a' from rfl,
      List.map_replicate]
    rw [show Char.toLower 'a' = 'a' from by decide]
  rw [hfun]
  refine List.Nodup.map ?_ (List.nodup_range 501)
  intro i j h
  have h2 := congrArg String.data h
  have h3 : List.replicate i 'a' = List.replicate j 'a' := h2
  have h4 := congrArg List.length h3
  simpa using h4

/-- Witness for C9: merging an empty batch over 501 distinct stored keys
leaves exactly 500 entries. -/
theorem recallMerge_caps_at_500_witness :
    500 < (dedupByKey (([] : List RecallEntry) ++ recallStored501)).length ∧
    (recallMerge recallStored501 []).length = 500 := by
  have hgt : 500 < (dedupByKey (([] : List RecallEntry) ++ recallStored501)).length := by
    rw [List.nil_append, dedupByKey_eq_self _ recallStored501_keys_nodup]
    simp [recallStored501]
  exact ⟨hgt,
    (recallMerge_caps_at_500 recallStored501 [] hgt (by simp) (by simp)).1⟩

end Alice
